import Mathlib

/-!
Shallow embedding of the credential/session core of the backend
(`src/services/auth.service.ts`, `src/controllers/auth.controller.ts`,
`src/middlewares/rateLimiter.middleware.ts`, `src/utils/validators.ts`).

Timestamps are milliseconds since the epoch, represented as `Int` (JS `Date`
values compare by their millisecond value).  Database state is passed
explicitly as a `DB` value holding the four Prisma tables the auth code
touches.  Randomness (`Math.random`, fresh row ids, freshly signed JWT
strings, bcrypt hashes) is supplied by the caller as explicit arguments.
-/

/-- Milliseconds in one minute. -/
def msPerMinute : Int := 60000

/-- Milliseconds in one hour. -/
def msPerHour : Int := 3600000

/-- Milliseconds in one day. -/
def msPerDay : Int := 86400000

/-- The decimal digit `d` (`0 ≤ d ≤ 9`) as a character, `'0'` .. `'9'`. -/
def digitChar (d : Nat) : Char := Char.ofNat (48 + d)

/-- Little-endian decimal digits of `n`, computed with explicit fuel so that
the function is structurally recursive (and hence evaluates inside the
kernel).  With fuel at least `n` this is the full digit expansion. -/
def decimalDigitsFuel : Nat → Nat → List Nat
  | _, 0 => []
  | 0, _ + 1 => []
  | fuel + 1, n + 1 => ((n + 1) % 10) :: decimalDigitsFuel fuel ((n + 1) / 10)

/-- Little-endian decimal digits of `n` (`[]` for `0`). -/
def decimalDigits (n : Nat) : List Nat := decimalDigitsFuel n n

/-- JS `Number.prototype.toString()` for a non-negative integer: the usual
base-10 representation with no leading zeros. -/
def natToString (n : Nat) : String :=
  if n = 0 then "0" else String.mk ((decimalDigits n).reverse.map digitChar)

/-- The numeric value sampled by `Math.floor(100000 + Math.random() * 900000)`
in `generateEmailVerificationToken`: `Math.random()` is in `[0, 1)`, so the
floor is `100000 + k` for some `k < 900000`; the sample is modelled by an
arbitrary natural `rand`, reduced `% 900000`. -/
def codeValue (rand : Nat) : Nat := 100000 + rand % 900000

/-- The verification-code string produced by `generateEmailVerificationToken`:
`Math.floor(100000 + Math.random() * 900000).toString()`. -/
def sixDigitCode (rand : Nat) : String := natToString (codeValue rand)

/-- Row of the Prisma `User` table (the fields the auth core reads). -/
structure UserRow where
  id : String
  email : String
  nickname : Option String
  password : Option String
  emailVerified : Bool
  createdAt : Int
  deriving DecidableEq

/-- Row of the Prisma `RefreshToken` table. -/
structure RefreshTokenRow where
  token : String
  userId : String
  expiresAt : Int
  deriving DecidableEq

/-- Row of the Prisma `PasswordResetToken` table. -/
structure PasswordResetTokenRow where
  token : String
  userId : String
  expiresAt : Int
  deriving DecidableEq

/-- Row of the Prisma `EmailVerificationToken` table.  After migration
`20260127062945` the table has a non-unique `code` column and a denormalized
`email` column; rows are addressed by their primary key `id`. -/
structure EmailVerificationTokenRow where
  id : Nat
  code : String
  email : String
  userId : String
  expiresAt : Int
  createdAt : Int
  deriving DecidableEq

/-- The database state visible to the auth core. -/
structure DB where
  users : List UserRow
  refreshTokens : List RefreshTokenRow
  passwordResetTokens : List PasswordResetTokenRow
  emailVerificationTokens : List EmailVerificationTokenRow
  deriving DecidableEq

/-- `findUserByEmail` (auth.service.ts): `prisma.user.findUnique({ where: { email } })`. -/
def findUserByEmail (db : DB) (email : String) : Option UserRow :=
  db.users.find? (fun u => u.email == email)

/-- `findUserById` (auth.service.ts): `prisma.user.findUnique({ where: { id } })`. -/
def findUserById (db : DB) (id : String) : Option UserRow :=
  db.users.find? (fun u => u.id == id)

/-- `storeRefreshToken` (auth.service.ts): creates a `RefreshToken` row with a
7-day expiry (`Date.now() + 7 * 24 * 60 * 60 * 1000`). -/
def storeRefreshToken (db : DB) (now : Int) (userId token : String) : DB :=
  { db with refreshTokens :=
      db.refreshTokens ++ [⟨token, userId, now + 7 * msPerDay⟩] }

/-- `deleteRefreshToken` (auth.service.ts): `prisma.refreshToken.delete` wrapped
in `try/catch`.  Any thrown error — the row being absent as well as a store
connectivity failure (`storeDown = true`) — is caught and merely logged
("Token not found or already deleted"), so the function always returns
normally.  When the store is down the delete does not happen. -/
def deleteRefreshToken (storeDown : Bool) (db : DB) (token : String) : DB :=
  if storeDown then db
  else { db with refreshTokens := db.refreshTokens.filter (fun r => r.token != token) }

/-- `rotateRefreshToken` (auth.service.ts): deletes the old token (idempotently,
via `deleteRefreshToken`), then stores the freshly signed JWT `newToken` for
`userId`.  It never looks the old token up, and never fails on its absence. -/
def rotateRefreshToken (db : DB) (now : Int) (oldToken userId newToken : String) :
    String × DB :=
  let db1 := deleteRefreshToken false db oldToken
  let db2 := storeRefreshToken db1 now userId newToken
  (newToken, db2)

/-- `revokeAllUserTokens` (auth.service.ts): `deleteMany({ where: { userId } })`. -/
def revokeAllUserTokens (db : DB) (userId : String) : DB :=
  { db with refreshTokens := db.refreshTokens.filter (fun r => r.userId != userId) }

/-- `generatePasswordResetToken` (auth.service.ts): persists the random token
with a 10-minute expiry (`setMinutes(getMinutes() + 10)`). -/
def generatePasswordResetToken (db : DB) (now : Int) (userId token : String) : DB :=
  { db with passwordResetTokens :=
      db.passwordResetTokens ++ [⟨token, userId, now + 10 * msPerMinute⟩] }

/-- `verifyPasswordResetToken` (auth.service.ts): looks the token row up; the
whole body is wrapped in `try/catch` returning `null` on any throw, so a store
connectivity failure (`storeDown = true`) yields `none`.  An absent row yields
`none`; a found-but-expired row (`expiresAt < new Date()`) is deleted and
`none` is returned; otherwise the row's `userId` is returned. -/
def verifyPasswordResetToken (storeDown : Bool) (db : DB) (now : Int)
    (token : String) : Option String × DB :=
  if storeDown then (none, db)
  else
    match db.passwordResetTokens.find? (fun r => r.token == token) with
    | none => (none, db)
    | some row =>
      if row.expiresAt < now then
        (none, { db with passwordResetTokens :=
          db.passwordResetTokens.filter (fun r => r.token != token) })
      else
        (some row.userId, db)

/-- `resetPassword` (auth.service.ts): verifies the reset token, hashes the
new password (the bcrypt hash is the caller-supplied black box `newHash`),
updates the user's password and deletes the token row.  The body is wrapped in
`try/catch` returning `false` on any throw: a store failure yields `false`, and
a missing user row (which makes `prisma.user.update` throw) also yields
`false` with the verify step's side effects retained. -/
def resetPassword (storeDown : Bool) (db : DB) (now : Int)
    (token newHash : String) : Bool × DB :=
  if storeDown then (false, db)
  else
    match verifyPasswordResetToken false db now token with
    | (none, db1) => (false, db1)
    | (some userId, db1) =>
      if db1.users.any (fun u => u.id == userId) then
        let setHash := fun (u : UserRow) =>
          if u.id == userId then { u with password := some newHash } else u
        let db2 := { db1 with users := db1.users.map setHash }
        let db3 := { db2 with passwordResetTokens :=
          db2.passwordResetTokens.filter (fun r => r.token != token) }
        (true, db3)
      else
        (false, db1)

/-- Outcome of `generateEmailVerificationToken`: either the thrown
"Too many verification emails sent. Please try again later." error, or the
issued code. -/
inductive IssueResult where
  | rateLimited
  | issued (code : String)
  deriving DecidableEq

/-- The rate-limit count of `generateEmailVerificationToken`:
`prisma.emailVerificationToken.count({ where: { email, createdAt: { gte: oneHourAgo } } })`
with `oneHourAgo = now - 1 hour` (`setHours(getHours() - 1)`).  Only rows still
present are counted; consumed (deleted) rows are not. -/
def recentCount (db : DB) (email : String) (now : Int) : Nat :=
  (db.emailVerificationTokens.filter
    (fun r => r.email == email && decide (now - msPerHour ≤ r.createdAt))).length

/-- `generateEmailVerificationToken` (auth.service.ts): if at least 3
`EmailVerificationToken` rows for `email` were created within the trailing
hour, throws the rate-limit error without creating a row; otherwise creates a
row with code `sixDigitCode rand`, a 5-minute expiry and the fresh primary key
`freshId`, and returns the code. -/
def generateEmailVerificationToken (db : DB) (now : Int) (rand freshId : Nat)
    (userId email : String) : IssueResult × DB :=
  if 3 ≤ recentCount db email now then
    (.rateLimited, db)
  else
    (.issued (sixDigitCode rand),
     { db with emailVerificationTokens := db.emailVerificationTokens ++
        [⟨freshId, sixDigitCode rand, email, userId, now + 5 * msPerMinute, now⟩] })

/-- `verifyEmailToken` (auth.service.ts): `findFirst` on matching `email` and
`code`; `false` when absent; a found-but-expired row is deleted and `false` is
returned; otherwise a `$transaction` atomically sets the user's
`emailVerified` flag and deletes the code row (if the user row is absent the
`user.update` inside the transaction throws, the transaction rolls back and
the `catch` returns `false`). -/
def verifyEmailToken (db : DB) (now : Int) (email code : String) : Bool × DB :=
  match db.emailVerificationTokens.find? (fun r => r.email == email && r.code == code) with
  | none => (false, db)
  | some row =>
    if row.expiresAt < now then
      (false, { db with emailVerificationTokens :=
        db.emailVerificationTokens.filter (fun r => r.id != row.id) })
    else if db.users.any (fun u => u.id == row.userId) then
      (true, { db with
        users := db.users.map
          (fun u => if u.id == row.userId then { u with emailVerified := true } else u),
        emailVerificationTokens :=
          db.emailVerificationTokens.filter (fun r => r.id != row.id) })
    else
      (false, db)

/-- `cleanupUnverifiedAccounts` (auth.service.ts): deletes every user with
`emailVerified = false` and `createdAt` strictly older than 3 days
(`createdAt: { lt: threeDaysAgo }`); returns the deleted count. -/
def cleanupUnverifiedAccounts (db : DB) (now : Int) : Nat × DB :=
  let threeDaysAgo := now - 3 * msPerDay
  let doomed := fun (u : UserRow) =>
    !u.emailVerified && decide (u.createdAt < threeDaysAgo)
  ((db.users.filter doomed).length,
   { db with users := db.users.filter (fun u => !(doomed u)) })

/-- JS `String.prototype.toLowerCase` (on the ASCII range the code feeds it):
lowercase character by character. -/
def strToLower (s : String) : String :=
  String.mk (s.data.map Char.toLower)

/-- `getEmailLocalPart` (validators.ts): `email.split('@')[0] || ''` — the part
of the email before the first `'@'`. -/
def getEmailLocalPart (email : String) : String :=
  String.mk (email.data.takeWhile (fun c => c != '@'))

/-- JS `String.prototype.includes`: substring containment. -/
def strIncludes (hay needle : String) : Bool :=
  decide (List.IsInfix needle.data hay.data)

/-- The allowed password alphabet of `isValidPassword` (validators.ts):
`[A-Za-z\d@$!%*#?&]`. -/
def isAllowedPwChar (c : Char) : Bool :=
  c.isAlpha || c.isDigit || "@$!%*#?&".data.contains c

/-- `isValidPassword` (validators.ts): the regex
`^(?=.*[A-Za-z])(?=.*\d)(?=.*[@$!%*#?&])[A-Za-z\d@$!%*#?&]{8,}$` — at least 8
characters drawn from the allowed alphabet, with at least one letter, one
digit and one special character. -/
def isValidPassword (password : String) : Bool :=
  password.data.any (fun c => c.isAlpha) &&
  password.data.any (fun c => c.isDigit) &&
  password.data.any (fun c => "@$!%*#?&".data.contains c) &&
  password.data.all isAllowedPwChar &&
  decide (8 ≤ password.length)

/-- Result object of `isPasswordSecure` (validators.ts). -/
structure SecurityCheck where
  isSecure : Bool
  reason : Option String
  deriving DecidableEq

/-- `isPasswordSecure` (validators.ts): rejects a password containing the
lowercased email local part or the lowercased nickname (a JS falsy nickname —
absent or empty — skips the nickname check). -/
def isPasswordSecure (password email : String) (nickname : Option String) :
    SecurityCheck :=
  let emailLocalPart := strToLower (getEmailLocalPart email)
  let lowerPassword := strToLower password
  if decide (0 < emailLocalPart.length) && strIncludes lowerPassword emailLocalPart then
    ⟨false, some "Password must not contain your email ID"⟩
  else
    match nickname with
    | some nick =>
      if nick != "" && strIncludes lowerPassword (strToLower nick) then
        ⟨false, some "Password must not contain your nickname"⟩
      else
        ⟨true, none⟩
    | none => ⟨true, none⟩

/-- ECMAScript `ToBoolean` of an object value: every object is truthy,
whatever its fields hold. -/
def jsObjectTruthy (_check : SecurityCheck) : Bool := true

/-- The step-5 guard of the `resetPassword` controller (auth.controller.ts):
`if (!isPasswordSecure(newPassword, user.email, user.nickname || undefined))`.
The negation is applied to the returned object itself (not to its `isSecure`
field), and `user.nickname || undefined` turns an empty nickname into
`undefined`. -/
def resetPasswordGuardRejects (newPassword email : String)
    (nickname : Option String) : Bool :=
  let nicknameArg := match nickname with
    | some "" => none
    | other => other
  !(jsObjectTruthy (isPasswordSecure newPassword email nicknameArg))

/-- The step-4 guard of the `register` controller (auth.controller.ts):
`const securityCheck = isPasswordSecure(password, email, nickname);
if (!securityCheck.isSecure) { ... }` — here the `isSecure` field is read. -/
def registerGuardRejects (password email : String) (nickname : Option String) :
    Bool :=
  !(isPasswordSecure password email nickname).isSecure

/-- An HTTP response as the controllers build it: a status code and the JSON
body flattened to its key/value pairs in source order. -/
structure Response where
  status : Nat
  body : List (String × String)
  deriving DecidableEq

/-- The success payload of `forgotPassword`, returned identically whether or
not a user with the given email exists. -/
def forgotMsg : String :=
  "If an account exists with this email, a password reset link has been sent"

/-- `forgotPassword` controller (auth.controller.ts).  `email?` is the request
body's `email` field (`none` when absent); `if (!email)` also treats the empty
string as missing.  When a user exists a reset token (`resetTok`, the random
32-byte hex string) is persisted and mailed; the email dispatch is assumed to
succeed (its failure would be the controller's generic 500 catch). -/
def forgotPassword (db : DB) (now : Int) (emailArg : Option String)
    (resetTok : String) : Response × DB :=
  let email := emailArg.getD ""
  if email = "" then
    (⟨400, [("error", "Validation Error"), ("message", "Email is required")]⟩, db)
  else
    match findUserByEmail db email with
    | none => (⟨200, [("message", forgotMsg)]⟩, db)
    | some u =>
      (⟨200, [("message", forgotMsg)]⟩, generatePasswordResetToken db now u.id resetTok)

/-- `resendVerification` controller (auth.controller.ts): non-existent email →
200 with the enumeration-resistant message; already-verified user → 400
"Already Verified"; otherwise a fresh code is issued (429 when the service
throws the rate-limit error, else 200 "Verification code has been sent"). -/
def resendVerification (db : DB) (now : Int) (emailArg : Option String)
    (rand freshId : Nat) : Response × DB :=
  let email := emailArg.getD ""
  if email = "" then
    (⟨400, [("error", "Validation Error"), ("message", "Email is required")]⟩, db)
  else
    match findUserByEmail db email with
    | none =>
      (⟨200, [("message",
        "If an unverified account exists with this email, a verification link has been sent")]⟩,
       db)
    | some u =>
      if u.emailVerified then
        (⟨400, [("error", "Already Verified"),
                ("message", "This email is already verified")]⟩, db)
      else
        match generateEmailVerificationToken db now rand freshId u.id email with
        | (.rateLimited, db1) =>
          (⟨429, [("error", "Too Many Requests"),
                  ("message", "Too many verification emails sent. Please try again later.")]⟩,
           db1)
        | (.issued _, db1) =>
          (⟨200, [("message", "Verification code has been sent")]⟩, db1)

/-- `refreshToken` controller (auth.controller.ts).  `cookie` is the
`refreshToken` HttpOnly cookie (`none` when absent; `if (!refreshToken)` also
treats the empty string as missing).  `verifyJwt` models the stateless
`authService.verifyRefreshToken` (`jwt.verify` against the refresh secret):
it maps a token whose signature verifies and whose embedded `exp` has not
passed to `some userId`, anything else to `none`.  Note the endpoint never
reads the `RefreshToken` table before rotating: on a decodable JWT it always
rotates — `rotateRefreshToken` idempotently deletes whatever row the old
token may still have and stores the fresh `newRefreshTok`. -/
def refreshTokenEndpoint (verifyJwt : String → Option String) (db : DB)
    (now : Int) (cookie : Option String) (newAccessTok newRefreshTok : String) :
    Response × DB :=
  let tok := cookie.getD ""
  if tok = "" then
    (⟨400, [("error", "Validation Error"), ("message", "Refresh token is required")]⟩, db)
  else
    match verifyJwt tok with
    | none =>
      (⟨401, [("error", "Invalid Token"),
              ("message", "Refresh token not found or expired")]⟩, db)
    | some userId =>
      let rotated := rotateRefreshToken db now tok userId newRefreshTok
      (⟨200, [("accessToken", newAccessTok)]⟩, rotated.2)

/-- `logout` controller (auth.controller.ts): revokes the cookie's refresh
token via `revokeRefreshToken` → `deleteRefreshToken`.  Since
`deleteRefreshToken` swallows every error, the controller's 500 catch branch
is unreachable and the endpoint reports success even when the credential
store is down (`storeDown = true`) and the row could not be deleted. -/
def logout (storeDown : Bool) (db : DB) (cookie : Option String) :
    Response × DB :=
  let tok := cookie.getD ""
  if tok = "" then
    (⟨400, [("error", "Validation Error"), ("message", "Refresh token is required")]⟩, db)
  else
    (⟨200, [("message", "Logged out successfully")]⟩,
     deleteRefreshToken storeDown db tok)

/-- `resetPassword` controller (auth.controller.ts): field/strength
validation, token verification (store failures surface here as `none`, hence
as the 401 "invalid or has expired" response), user lookup, the ineffective
step-5 security guard, then the service-level `resetPassword`. -/
def resetPasswordEndpoint (storeDown : Bool) (db : DB) (now : Int)
    (tokenArg newPasswordArg : Option String) (newHash : String) :
    Response × DB :=
  let token := tokenArg.getD ""
  let newPassword := newPasswordArg.getD ""
  if token = "" || newPassword = "" then
    (⟨400, [("error", "Validation Error"),
            ("message", "Token and new password are required")]⟩, db)
  else if !isValidPassword newPassword then
    (⟨400, [("error", "Validation Error"),
            ("message", "Password must be at least 8 characters with at least 1 letter, 1 number, and 1 special character (@$!%*#?&)")]⟩,
     db)
  else
    match verifyPasswordResetToken storeDown db now token with
    | (none, db1) =>
      (⟨401, [("error", "Invalid Token"),
              ("message", "Password reset token is invalid or has expired")]⟩, db1)
    | (some userId, db1) =>
      match findUserById db1 userId with
      | none =>
        (⟨401, [("error", "Invalid Token"), ("message", "User not found")]⟩, db1)
      | some user =>
        if resetPasswordGuardRejects newPassword user.email user.nickname then
          (⟨400, [("error", "Validation Error"),
                  ("message", "Password cannot contain your email ID or nickname")]⟩, db1)
        else
          match resetPassword storeDown db1 now token newHash with
          | (false, db2) =>
            (⟨401, [("error", "Invalid Token"), ("message", "Password reset failed")]⟩, db2)
          | (true, db2) =>
            (⟨200, [("message", "Password has been reset successfully")]⟩, db2)

/-- What the promise returned by `limiter.consume(ip)` does, from the
middleware's point of view: it resolves (the attempt is within the
allowance), or rejects with a `RateLimiterRes` carrying `msBeforeNext` (the
backend's reported time-to-reset — the allowance is exhausted), or rejects
with an `Error` (an operational failure thrown by the backend, e.g. a Redis
connectivity/timeout error — not a limit-exceeded result). -/
inductive LimiterOutcome where
  | allowed
  | limited (msBeforeNext : Nat)
  | thrownError (msg : String)
  deriving DecidableEq

/-- Observable effect of one `consumeLimiter` run: whether `next()` was
called, whether `logger.error` fired, and the response written (with the
`Retry-After` header value), if any. -/
structure MiddlewareEffect where
  nextCalled : Bool
  loggedError : Bool
  retryAfter : Option Nat
  response : Option Response
  deriving DecidableEq

/-- `Math.round(msBeforeNext / 1000) || 1` — half-up rounding to seconds,
with `0` replaced by `1`. -/
def retryAfterSecs (msBeforeNext : Nat) : Nat :=
  let secs := (msBeforeNext + 500) / 1000
  if secs = 0 then 1 else secs

/-- `consumeLimiter` (rateLimiter.middleware.ts): on a resolved consume,
`next()`.  In the catch, an `instanceof Error` rejection (operational backend
failure) is logged and the request is let through (`next()` — fail-open);
any other rejection is the limit-exceeded result and yields a 429 with a
`Retry-After` header from the backend's `msBeforeNext`. -/
def consumeLimiter (outcome : LimiterOutcome) (scopeKey : String) :
    MiddlewareEffect :=
  match outcome with
  | .allowed => ⟨true, false, none, none⟩
  | .thrownError _ => ⟨true, true, none, none⟩
  | .limited ms =>
    ⟨false, false, some (retryAfterSecs ms),
     some ⟨429, [("error", "Too Many Requests"),
                 ("message",
                  if scopeKey = "limit_auth" then
                    "Too many login attempts, please try again later"
                  else
                    "Too many requests, please try again later")]⟩⟩

/-- A concrete JWT-verification function used to instantiate the endpoint
theorems: the token string "jwt-a" has a valid signature carrying `userId`
"u1" (a refresh JWT stays cryptographically valid for 7 days however often it
is rotated); any other string fails verification. -/
def jwtStub : String → Option String :=
  fun t => if t = "jwt-a" then some "u1" else none

/-- Initial state of the spec's concrete verification scenario: one
unverified user `u1` with email `user@example.com`, empty token tables. -/
def scenarioDb0 : DB :=
  ⟨[⟨"u1", "user@example.com", none, some "h", false, 0⟩], [], [], []⟩

/-- After the 1st `Issue` at T0 (code "100000", row id 1). -/
def scenarioDb1 : DB :=
  (generateEmailVerificationToken scenarioDb0 0 0 1 "u1" "user@example.com").2

/-- After the 2nd `Issue` at T0+10s (code "100001", row id 2). -/
def scenarioDb2 : DB :=
  (generateEmailVerificationToken scenarioDb1 10000 1 2 "u1" "user@example.com").2

/-- After successfully consuming the 1st code at T0+4m59s (row 1 deleted,
user verified). -/
def scenarioDb3 : DB :=
  (verifyEmailToken scenarioDb2 299000 "user@example.com" "100000").2

/-- After the 3rd `Issue` at T0+10m (code "100002", row id 3). -/
def scenarioDb4 : DB :=
  (generateEmailVerificationToken scenarioDb3 600000 2 3 "u1" "user@example.com").2

/-- After the 4th `Issue` at T0+11m (code "100003", row id 4). -/
def scenarioDb5 : DB :=
  (generateEmailVerificationToken scenarioDb4 660000 3 4 "u1" "user@example.com").2

/-- `decimalDigitsFuel` of `0` is `[]` for any fuel. -/
theorem decimalDigitsFuel_zero (f : Nat) : decimalDigitsFuel f 0 = [] := by
  cases f <;> rfl

/-- The fuel is irrelevant as long as it is at least `n`. -/
theorem decimalDigitsFuel_congr :
    ∀ f g n : Nat, n ≤ f → n ≤ g → decimalDigitsFuel f n = decimalDigitsFuel g n := by
  intro f
  induction f with
  | zero =>
    intro g n hf _
    have hn : n = 0 := by omega
    subst hn
    rw [decimalDigitsFuel_zero, decimalDigitsFuel_zero]
  | succ f ih =>
    intro g n hf hg
    cases n with
    | zero => rw [decimalDigitsFuel_zero, decimalDigitsFuel_zero]
    | succ m =>
      cases g with
      | zero => omega
      | succ g =>
        show ((m + 1) % 10) :: decimalDigitsFuel f ((m + 1) / 10) =
          ((m + 1) % 10) :: decimalDigitsFuel g ((m + 1) / 10)
        congr 1
        exact ih g ((m + 1) / 10) (by omega) (by omega)

/-- One unfolding step of the decimal expansion, for positive `n`. -/
theorem decimalDigits_step (n : Nat) (h : 0 < n) :
    decimalDigits n = n % 10 :: decimalDigits (n / 10) := by
  obtain ⟨m, rfl⟩ : ∃ m, n = m + 1 := ⟨n - 1, by omega⟩
  show decimalDigitsFuel (m + 1) (m + 1) = _
  rw [show decimalDigitsFuel (m + 1) (m + 1) =
      ((m + 1) % 10) :: decimalDigitsFuel m ((m + 1) / 10) from rfl]
  congr 1
  exact decimalDigitsFuel_congr m ((m + 1) / 10) ((m + 1) / 10) (by omega) (by omega)

/-- The full decimal expansion of a six-digit number. -/
theorem decimalDigits_six (n : Nat) (h1 : 100000 ≤ n) (h2 : n < 1000000) :
    decimalDigits n =
      [n % 10, n / 10 % 10, n / 100 % 10, n / 1000 % 10, n / 10000 % 10, n / 100000] := by
  have e2 : n / 10 / 10 = n / 100 := by omega
  have e3 : n / 100 / 10 = n / 1000 := by omega
  have e4 : n / 1000 / 10 = n / 10000 := by omega
  have e5 : n / 10000 / 10 = n / 100000 := by omega
  have e6 : n / 100000 / 10 = 0 := by omega
  have e7 : n / 100000 % 10 = n / 100000 := by omega
  rw [decimalDigits_step n (by omega),
      decimalDigits_step (n / 10) (by omega), e2,
      decimalDigits_step (n / 100) (by omega), e3,
      decimalDigits_step (n / 1000) (by omega), e4,
      decimalDigits_step (n / 10000) (by omega), e5,
      decimalDigits_step (n / 100000) (by omega), e6, e7]
  rfl

/-- `natToString` of a six-digit number, character by character. -/
theorem natToString_six (n : Nat) (h1 : 100000 ≤ n) (h2 : n < 1000000) :
    natToString n = String.mk [digitChar (n / 100000), digitChar (n / 10000 % 10),
      digitChar (n / 1000 % 10), digitChar (n / 100 % 10), digitChar (n / 10 % 10),
      digitChar (n % 10)] := by
  unfold natToString
  rw [if_neg (by omega), decimalDigits_six n h1 h2]
  rfl

/-- A nonzero decimal digit never renders as the character `'0'`. -/
theorem digitChar_ne_zero (d : Nat) (h1 : 1 ≤ d) (h2 : d ≤ 9) : digitChar d ≠ '0' := by
  interval_cases d <;> decide

/-- C10: the reset-password endpoint's extra security check — that the new
password not contain the email local part or nickname — never rejects any
input, because the controller negates the object returned by
`isPasswordSecure` (always truthy) instead of its `isSecure` field; at
registration the same helper's `isSecure` field is inspected and the check is
effective. -/
theorem reset_guard_never_fires_register_guard_does :
    (∀ (password email : String) (nickname : Option String),
      resetPasswordGuardRejects password email nickname = false) ∧
    registerGuardRejects "secretpw1" "secretpw@x.com" none = true := by
  exact ⟨fun _ _ _ => rfl, by decide⟩

/-- C8: an operational error thrown by the limiter backend is logged and the
request is passed through (fail-open); a limit-exceeded rejection from the
consume call is answered with HTTP 429 and a Retry-After header of
`Math.round(msBeforeNext / 1000) || 1` seconds. -/
theorem limiter_fail_open_and_retry_after :
    (∀ msg scopeKey : String,
      consumeLimiter (.thrownError msg) scopeKey =
        { nextCalled := true, loggedError := true, retryAfter := none, response := none }) ∧
    (∀ (ms : Nat) (scopeKey : String),
      (consumeLimiter (.limited ms) scopeKey).nextCalled = false ∧
      (consumeLimiter (.limited ms) scopeKey).retryAfter = some (retryAfterSecs ms) ∧
      ((consumeLimiter (.limited ms) scopeKey).response.map Response.status) = some 429) := by
  exact ⟨fun _ _ => rfl, fun _ _ => ⟨rfl, rfl, rfl⟩⟩

/-- C9: a reaper run keeps exactly the users that are verified or at most
3 days old; concretely, an unverified user created 2 days before the run and
a verified user of any age survive, while an unverified user created 4 days
before the run is deleted. -/
theorem ghost_reaper_exactly_stale_unverified :
    (∀ (db : DB) (now : Int) (u : UserRow),
      u ∈ (cleanupUnverifiedAccounts db now).2.users ↔
        (u ∈ db.users ∧ (u.emailVerified = true ∨ now - 3 * msPerDay ≤ u.createdAt))) ∧
    (cleanupUnverifiedAccounts
       ⟨[⟨"u2", "two@days.old", none, none, false, -172800000⟩,
         ⟨"u4", "four@days.old", none, none, false, -345600000⟩,
         ⟨"u5", "old@verified.user", none, none, true, -34560000000⟩],
        [], [], []⟩ 0).2.users =
      [⟨"u2", "two@days.old", none, none, false, -172800000⟩,
       ⟨"u5", "old@verified.user", none, none, true, -34560000000⟩] := by
  constructor
  · intro db now u
    simp only [cleanupUnverifiedAccounts, List.mem_filter]
    cases h : u.emailVerified with
    | false => simp [h]
    | true => simp [h]
  · decide

/-- C7: a verification code or password-reset token whose expiry is in the
past always fails to consume, and the expired-but-found row is deleted as a
side effect before the failure is returned. -/
theorem expired_rows_fail_and_are_deleted :
    (∀ (db : DB) (now : Int) (email code : String) (row : EmailVerificationTokenRow),
      db.emailVerificationTokens.find? (fun r => r.email == email && r.code == code) =
        some row →
      row.expiresAt < now →
      verifyEmailToken db now email code =
        (false, { db with emailVerificationTokens :=
          db.emailVerificationTokens.filter (fun r => r.id != row.id) })) ∧
    (∀ (db : DB) (now : Int) (token : String) (row : PasswordResetTokenRow),
      db.passwordResetTokens.find? (fun r => r.token == token) = some row →
      row.expiresAt < now →
      verifyPasswordResetToken false db now token =
        (none, { db with passwordResetTokens :=
          db.passwordResetTokens.filter (fun r => r.token != token) })) := by
  constructor
  · intro db now email code row hfind hexp
    simp only [verifyEmailToken, hfind]
    rw [if_pos hexp]
  · intro db now token row hfind hexp
    simp only [verifyPasswordResetToken, Bool.false_eq_true, if_false, hfind]
    rw [if_pos hexp]

/-- Witness for `expired_rows_fail_and_are_deleted` at a concrete state: a
code row and a reset row both expired at time 100, consumed at time 500. -/
theorem expired_rows_fail_and_are_deleted_witness :
    verifyEmailToken ⟨[], [], [], [⟨1, "123456", "a@b.c", "u1", 100, 0⟩]⟩
        500 "a@b.c" "123456" = (false, ⟨[], [], [], []⟩) ∧
    verifyPasswordResetToken false ⟨[], [], [⟨"tk", "u1", 100⟩], []⟩ 500 "tk" =
      (none, ⟨[], [], [], []⟩) := by
  constructor
  · exact (expired_rows_fail_and_are_deleted.1
      ⟨[], [], [], [⟨1, "123456", "a@b.c", "u1", 100, 0⟩]⟩ 500 "a@b.c" "123456"
      ⟨1, "123456", "a@b.c", "u1", 100, 0⟩ rfl (by decide)).trans (by decide)
  · exact (expired_rows_fail_and_are_deleted.2
      ⟨[], [], [⟨"tk", "u1", 100⟩], []⟩ 500 "tk"
      ⟨"tk", "u1", 100⟩ rfl (by decide)).trans (by decide)

/-- C2: consuming an unexpired verification code matching both email and code
(the matching row being unique and its user present) returns success with a
single resulting state in which the user's `emailVerified` flag is set AND no
matching code row remains (the `$transaction` performs both together), and a
subsequent consume of the same email and code on that state observes no row
and fails, leaving the state unchanged. -/
theorem consume_verification_code_single_use :
    ∀ (db : DB) (now nowLater : Int) (email code : String)
      (row : EmailVerificationTokenRow),
      db.emailVerificationTokens.find? (fun r => r.email == email && r.code == code) =
        some row →
      (∀ r ∈ db.emailVerificationTokens, r.email = email → r.code = code → r.id = row.id) →
      ¬ row.expiresAt < now →
      db.users.any (fun u => u.id == row.userId) = true →
      (verifyEmailToken db now email code).1 = true ∧
      (∀ u ∈ (verifyEmailToken db now email code).2.users,
        u.id = row.userId → u.emailVerified = true) ∧
      (∀ r ∈ (verifyEmailToken db now email code).2.emailVerificationTokens,
        ¬(r.email = email ∧ r.code = code)) ∧
      verifyEmailToken (verifyEmailToken db now email code).2 nowLater email code =
        (false, (verifyEmailToken db now email code).2) := by
  intro db now nowLater email code row hfind huniq hexp huser
  have hres : verifyEmailToken db now email code =
      (true, { db with
        users := db.users.map
          (fun u => if u.id == row.userId then { u with emailVerified := true } else u),
        emailVerificationTokens :=
          db.emailVerificationTokens.filter (fun r => r.id != row.id) }) := by
    simp only [verifyEmailToken, hfind]
    rw [if_neg hexp, if_pos huser]
  have hnomatch : ∀ r ∈ db.emailVerificationTokens.filter (fun r => r.id != row.id),
      ¬(r.email = email ∧ r.code = code) := by
    intro r hr hrc
    have hm := List.mem_filter.mp hr
    have hne : r.id ≠ row.id := by simpa using hm.2
    exact hne (huniq r hm.1 hrc.1 hrc.2)
  refine ⟨by rw [hres], ?_, ?_, ?_⟩
  · rw [hres]
    intro u hu hid
    obtain ⟨v, hv, rfl⟩ := List.mem_map.mp hu
    by_cases hvid : v.id == row.userId
    · simp [hvid]
    · simp only [hvid, if_neg] at hid ⊢
      simp at hvid
      exact absurd hid hvid
  · rw [hres]
    exact hnomatch
  · rw [hres]
    have hnone : (db.emailVerificationTokens.filter (fun r => r.id != row.id)).find?
        (fun r => r.email == email && r.code == code) = none := by
      rw [List.find?_eq_none]
      intro r hr hp
      have hpe : r.email = email ∧ r.code = code := by simpa using hp
      exact hnomatch r hr hpe
    simp only [verifyEmailToken, hnone]

/-- Witness for `consume_verification_code_single_use`: user `u1` with one
unexpired code row; the first consume succeeds and the second fails, leaving
the state unchanged. -/
theorem consume_verification_code_single_use_witness :
    (verifyEmailToken ⟨[⟨"u1", "a@b.c", none, some "h", false, 0⟩], [], [],
       [⟨1, "123456", "a@b.c", "u1", 300000, 0⟩]⟩ 500 "a@b.c" "123456").1 = true ∧
    verifyEmailToken
        (verifyEmailToken ⟨[⟨"u1", "a@b.c", none, some "h", false, 0⟩], [], [],
          [⟨1, "123456", "a@b.c", "u1", 300000, 0⟩]⟩ 500 "a@b.c" "123456").2
        501 "a@b.c" "123456" =
      (false, (verifyEmailToken ⟨[⟨"u1", "a@b.c", none, some "h", false, 0⟩], [], [],
        [⟨1, "123456", "a@b.c", "u1", 300000, 0⟩]⟩ 500 "a@b.c" "123456").2) := by
  have h := consume_verification_code_single_use
    ⟨[⟨"u1", "a@b.c", none, some "h", false, 0⟩], [], [],
      [⟨1, "123456", "a@b.c", "u1", 300000, 0⟩]⟩ 500 501 "a@b.c" "123456"
    ⟨1, "123456", "a@b.c", "u1", 300000, 0⟩ rfl (by decide) (by decide) (by decide)
  exact ⟨h.1, h.2.2.2⟩

/-- C1 counterexample: starting from a state holding the issued session-token
row "jwt-a", the first refresh call succeeds and rotates the row away; a
second refresh call with the very same, now-consumed (deleted) token ALSO
succeeds with HTTP 200 and persists yet another token row ("jwt-c"), because
the endpoint only verifies the JWT signature and never looks the stored row
up — it does not fail with TokenNotFound/TokenExpired. -/
theorem second_rotate_succeeds_cex :
    (refreshTokenEndpoint jwtStub ⟨[], [⟨"jwt-a", "u1", 604800000⟩], [], []⟩ 0
       (some "jwt-a") "acc1" "jwt-b").1.status = 200 ∧
    (refreshTokenEndpoint jwtStub ⟨[], [⟨"jwt-a", "u1", 604800000⟩], [], []⟩ 0
       (some "jwt-a") "acc1" "jwt-b").2.refreshTokens = [⟨"jwt-b", "u1", 604800000⟩] ∧
    (refreshTokenEndpoint jwtStub
       (refreshTokenEndpoint jwtStub ⟨[], [⟨"jwt-a", "u1", 604800000⟩], [], []⟩ 0
         (some "jwt-a") "acc1" "jwt-b").2 1000 (some "jwt-a") "acc2" "jwt-c").1.status =
      200 ∧
    (refreshTokenEndpoint jwtStub
       (refreshTokenEndpoint jwtStub ⟨[], [⟨"jwt-a", "u1", 604800000⟩], [], []⟩ 0
         (some "jwt-a") "acc1" "jwt-b").2 1000 (some "jwt-a") "acc2" "jwt-c").2.refreshTokens =
      [⟨"jwt-b", "u1", 604800000⟩, ⟨"jwt-c", "u1", 604801000⟩] := by
  decide

/-- C1 amended: the refresh endpoint validates the old session token only
cryptographically (`jwt.verify`); it never reads the stored `RefreshToken`
row, so it cannot fail based on that row's absence or expiry.  On any
decodable, non-empty token it answers 200 and replaces the state by
"idempotently delete whatever row the old token had, then insert the new
row" — regardless of whether the old row exists. -/
theorem rotate_checks_jwt_only :
    ∀ (verifyJwt : String → Option String) (db : DB) (now : Int)
      (tok userId newAccessTok newRefreshTok : String),
      tok ≠ "" → verifyJwt tok = some userId →
      refreshTokenEndpoint verifyJwt db now (some tok) newAccessTok newRefreshTok =
        (⟨200, [("accessToken", newAccessTok)]⟩,
         storeRefreshToken (deleteRefreshToken false db tok) now userId newRefreshTok) := by
  intro verifyJwt db now tok userId newAccessTok newRefreshTok hne hdec
  simp only [refreshTokenEndpoint, Option.getD_some]
  rw [if_neg hne, hdec]
  rfl

/-- Witness for `rotate_checks_jwt_only`: an empty store (no token row at
all), yet the rotation succeeds. -/
theorem rotate_checks_jwt_only_witness :
    refreshTokenEndpoint jwtStub ⟨[], [], [], []⟩ 0 (some "jwt-a") "acc" "jwt-b" =
      (⟨200, [("accessToken", "acc")]⟩,
       storeRefreshToken (deleteRefreshToken false ⟨[], [], [], []⟩ "jwt-a") 0 "u1" "jwt-b") :=
  rotate_checks_jwt_only jwtStub ⟨[], [], [], []⟩ 0 "jwt-a" "u1" "acc" "jwt-b"
    (by decide) rfl

/-- C6 counterexample: with the credential store down (every Prisma call
throwing a connectivity error) and the relevant rows actually present, the
logout (Revoke) endpoint still answers 200 "Logged out successfully" — the
failure is swallowed by `deleteRefreshToken`'s catch — and the reset-password
(consumption) endpoint answers 401 "Password reset token is invalid or has
expired" — the generic invalid-token result.  Neither surfaces a generic
server error (500). -/
theorem store_failure_swallowed_cex :
    (logout true ⟨[], [⟨"t1", "u1", 604800000⟩], [], []⟩ (some "t1")).1 =
      ⟨200, [("message", "Logged out successfully")]⟩ ∧
    (resetPasswordEndpoint true
       ⟨[⟨"u1", "a@b.c", none, some "oldhash", true, 0⟩], [],
         [⟨"tok1", "u1", 600000⟩], []⟩ 0 (some "tok1") (some "Abcdef1!") "newhash").1 =
      ⟨401, [("error", "Invalid Token"),
             ("message", "Password reset token is invalid or has expired")]⟩ ∧
    (logout true ⟨[], [⟨"t1", "u1", 604800000⟩], [], []⟩ (some "t1")).1.status ≠ 500 ∧
    (resetPasswordEndpoint true
       ⟨[⟨"u1", "a@b.c", none, some "oldhash", true, 0⟩], [],
         [⟨"tok1", "u1", 600000⟩], []⟩ 0 (some "tok1") (some "Abcdef1!") "newhash").1.status ≠
      500 := by
  decide

/-- C6 amended: a credential-store connectivity failure is NOT fatal-and-
surfaced-as-server-error for these operations: Revoke (logout) swallows it and
reports success with the state unchanged, and password-reset consumption maps
it to the generic 401 invalid-token response. -/
theorem store_failure_not_server_error :
    (∀ (db : DB) (tok : String), tok ≠ "" →
      logout true db (some tok) =
        (⟨200, [("message", "Logged out successfully")]⟩, db)) ∧
    (∀ (db : DB) (now : Int) (tok pw hash : String),
      tok ≠ "" → pw ≠ "" → isValidPassword pw = true →
      resetPasswordEndpoint true db now (some tok) (some pw) hash =
        (⟨401, [("error", "Invalid Token"),
                ("message", "Password reset token is invalid or has expired")]⟩, db)) := by
  constructor
  · intro db tok hne
    simp only [logout, Option.getD_some, if_neg hne, deleteRefreshToken]
    simp
  · intro db now tok pw hash htok hpw hvalid
    simp only [resetPasswordEndpoint, Option.getD_some]
    rw [if_neg (by simp [htok, hpw])]
    rw [if_neg (by simp [hvalid])]
    simp only [verifyPasswordResetToken]
    simp

/-- Witness for `store_failure_not_server_error` at concrete states. -/
theorem store_failure_not_server_error_witness :
    logout true ⟨[], [], [], []⟩ (some "t9") =
      (⟨200, [("message", "Logged out successfully")]⟩, ⟨[], [], [], []⟩) ∧
    resetPasswordEndpoint true ⟨[], [], [], []⟩ 0 (some "t9") (some "Abcdef1!") "h" =
      (⟨401, [("error", "Invalid Token"),
              ("message", "Password reset token is invalid or has expired")]⟩,
       ⟨[], [], [], []⟩) :=
  ⟨store_failure_not_server_error.1 ⟨[], [], [], []⟩ "t9" (by decide),
   store_failure_not_server_error.2 ⟨[], [], [], []⟩ 0 "t9" "Abcdef1!" "h"
     (by decide) (by decide) (by decide)⟩

/-- C3 counterexample: on the verification-resend path the response is NOT
identical across account states.  For an existing-but-already-verified email
the endpoint answers 400 "Already Verified"; for a non-existent email it
answers 200 with the enumeration-resistant message; and even the
existing-unverified success payload ("Verification code has been sent")
differs byte-wise from the non-existent one. -/
theorem resend_leaks_verification_state_cex :
    (resendVerification ⟨[⟨"u1", "a@b.c", none, some "h", true, 0⟩], [], [], []⟩ 0
       (some "a@b.c") 0 1).1 =
      ⟨400, [("error", "Already Verified"),
             ("message", "This email is already verified")]⟩ ∧
    (resendVerification ⟨[⟨"u1", "a@b.c", none, some "h", true, 0⟩], [], [], []⟩ 0
       (some "x@y.z") 0 1).1 =
      ⟨200, [("message",
        "If an unverified account exists with this email, a verification link has been sent")]⟩ ∧
    (resendVerification ⟨[⟨"u1", "a@b.c", none, some "h", false, 0⟩], [], [], []⟩ 0
       (some "a@b.c") 0 1).1 =
      ⟨200, [("message", "Verification code has been sent")]⟩ ∧
    (resendVerification ⟨[⟨"u1", "a@b.c", none, some "h", true, 0⟩], [], [], []⟩ 0
       (some "a@b.c") 0 1).1 ≠
      (resendVerification ⟨[⟨"u1", "a@b.c", none, some "h", true, 0⟩], [], [], []⟩ 0
        (some "x@y.z") 0 1).1 := by
  decide

/-- C3 amended: only the password-reset request path is enumeration-resistant —
for every non-empty email its response is the same 200 payload whatever the
database holds.  The resend path distinguishes the account states: an
existing-already-verified email gets 400 "Already Verified", while a
non-existent email gets the 200 enumeration-resistant message. -/
theorem forgot_password_enumeration_resistant :
    (∀ (db : DB) (now : Int) (email tok : String), email ≠ "" →
      (forgotPassword db now (some email) tok).1 = ⟨200, [("message", forgotMsg)]⟩) ∧
    (∀ (db : DB) (now : Int) (email : String) (rand freshId : Nat) (u : UserRow),
      email ≠ "" → findUserByEmail db email = some u → u.emailVerified = true →
      (resendVerification db now (some email) rand freshId).1 =
        ⟨400, [("error", "Already Verified"),
               ("message", "This email is already verified")]⟩) ∧
    (∀ (db : DB) (now : Int) (email : String) (rand freshId : Nat),
      email ≠ "" → findUserByEmail db email = none →
      (resendVerification db now (some email) rand freshId).1 =
        ⟨200, [("message",
          "If an unverified account exists with this email, a verification link has been sent")]⟩) := by
  refine ⟨?_, ?_, ?_⟩
  · intro db now email tok hne
    cases hfind : findUserByEmail db email <;>
      simp [forgotPassword, Option.getD_some, if_neg hne, hfind]
  · intro db now email rand freshId u hne hfind hver
    simp [resendVerification, Option.getD_some, if_neg hne, hfind, hver]
  · intro db now email rand freshId hne hfind
    simp [resendVerification, Option.getD_some, if_neg hne, hfind]

/-- Witness for `forgot_password_enumeration_resistant` at concrete states. -/
theorem forgot_password_enumeration_resistant_witness :
    (forgotPassword ⟨[], [], [], []⟩ 0 (some "n@o.pe") "rtok").1 =
      ⟨200, [("message", forgotMsg)]⟩ ∧
    (resendVerification ⟨[⟨"u1", "v@e.r", none, some "h", true, 0⟩], [], [], []⟩ 0
       (some "v@e.r") 0 1).1 =
      ⟨400, [("error", "Already Verified"),
             ("message", "This email is already verified")]⟩ ∧
    (resendVerification ⟨[], [], [], []⟩ 0 (some "n@o.pe") 0 1).1 =
      ⟨200, [("message",
        "If an unverified account exists with this email, a verification link has been sent")]⟩ :=
  ⟨forgot_password_enumeration_resistant.1 ⟨[], [], [], []⟩ 0 "n@o.pe" "rtok" (by decide),
   forgot_password_enumeration_resistant.2.1
     ⟨[⟨"u1", "v@e.r", none, some "h", true, 0⟩], [], [], []⟩ 0 "v@e.r" 0 1
     ⟨"u1", "v@e.r", none, some "h", true, 0⟩ (by decide) (by decide) rfl,
   forgot_password_enumeration_resistant.2.2 ⟨[], [], [], []⟩ 0 "n@o.pe" 0 1
     (by decide) rfl⟩

/-- C5 counterexample: replaying the spec's concrete scenario — 1st Issue at
T0, 2nd Issue at T0+10s, successful Consume of the first code at T0+4m59s
(which deletes that code row), a failed repeat Consume — the 4th Issue call
for the same email within the hour (3rd at T0+10m, 4th at T0+11m) SUCCEEDS,
because the consumed row no longer exists and the rate-limit count is only 2;
it does not fail with RateLimited. -/
theorem fourth_issue_succeeds_after_consume_cex :
    (generateEmailVerificationToken scenarioDb0 0 0 1 "u1" "user@example.com").1 =
      .issued "100000" ∧
    (generateEmailVerificationToken scenarioDb1 10000 1 2 "u1" "user@example.com").1 =
      .issued "100001" ∧
    (verifyEmailToken scenarioDb2 299000 "user@example.com" "100000").1 = true ∧
    (verifyEmailToken scenarioDb3 299500 "user@example.com" "100000").1 = false ∧
    (generateEmailVerificationToken scenarioDb3 600000 2 3 "u1" "user@example.com").1 =
      .issued "100002" ∧
    (generateEmailVerificationToken scenarioDb4 660000 3 4 "u1" "user@example.com").1 =
      .issued "100003" ∧
    (generateEmailVerificationToken scenarioDb4 660000 3 4 "u1" "user@example.com").1 ≠
      .rateLimited := by
  decide

/-- C5 amended: Issue counts the VerificationCode rows for the email created
within the trailing hour that are still present — consumed (deleted) rows no
longer count.  With at least 3 such rows it fails with RateLimited and
creates no row; with fewer it issues and persists a new row.  In the spec's
scenario the successful Consume removed one row, so the 4th Issue within the
hour succeeds and it is the 5th (at T0+12m) that fails with RateLimited. -/
theorem issue_rate_limit_rule :
    (∀ (db : DB) (now : Int) (rand freshId : Nat) (userId email : String),
      3 ≤ recentCount db email now →
      generateEmailVerificationToken db now rand freshId userId email =
        (.rateLimited, db)) ∧
    (∀ (db : DB) (now : Int) (rand freshId : Nat) (userId email : String),
      recentCount db email now < 3 →
      generateEmailVerificationToken db now rand freshId userId email =
        (.issued (sixDigitCode rand),
         { db with emailVerificationTokens := db.emailVerificationTokens ++
            [⟨freshId, sixDigitCode rand, email, userId, now + 5 * msPerMinute, now⟩] })) ∧
    (generateEmailVerificationToken scenarioDb5 720000 4 5 "u1" "user@example.com").1 =
      .rateLimited := by
  refine ⟨?_, ?_, by decide⟩
  · intro db now rand freshId userId email h
    simp only [generateEmailVerificationToken, if_pos h]
  · intro db now rand freshId userId email h
    simp only [generateEmailVerificationToken]
    rw [if_neg (show ¬ 3 ≤ recentCount db email now from by omega)]

/-- Witness for `issue_rate_limit_rule`: a state with 3 fresh rows for the
email rejects a 4th issue; the empty state accepts one. -/
theorem issue_rate_limit_rule_witness :
    generateEmailVerificationToken
        ⟨[], [], [], [⟨1, "100000", "e@x.y", "u1", 300000, 0⟩,
          ⟨2, "100001", "e@x.y", "u1", 310000, 10000⟩,
          ⟨3, "100002", "e@x.y", "u1", 320000, 20000⟩]⟩ 30000 7 4 "u1" "e@x.y" =
      (.rateLimited,
       ⟨[], [], [], [⟨1, "100000", "e@x.y", "u1", 300000, 0⟩,
         ⟨2, "100001", "e@x.y", "u1", 310000, 10000⟩,
         ⟨3, "100002", "e@x.y", "u1", 320000, 20000⟩]⟩) ∧
    generateEmailVerificationToken ⟨[], [], [], []⟩ 0 7 1 "u1" "e@x.y" =
      (.issued (sixDigitCode 7),
       { (⟨[], [], [], []⟩ : DB) with emailVerificationTokens := [] ++
          [⟨1, sixDigitCode 7, "e@x.y", "u1", (0 : Int) + 5 * msPerMinute, 0⟩] }) :=
  ⟨issue_rate_limit_rule.1
     ⟨[], [], [], [⟨1, "100000", "e@x.y", "u1", 300000, 0⟩,
       ⟨2, "100001", "e@x.y", "u1", 310000, 10000⟩,
       ⟨3, "100002", "e@x.y", "u1", 320000, 20000⟩]⟩ 30000 7 4 "u1" "e@x.y" (by decide),
   issue_rate_limit_rule.2.1 ⟨[], [], [], []⟩ 0 7 1 "u1" "e@x.y" (by decide)⟩

/-- C4 counterexample: the 6-digit string "042871" (the code of the spec's
concrete scenario) is not a possible output of the generator — no random
sample produces it, since `Math.floor(100000 + Math.random() * 900000)` is
always at least 100000 and its decimal rendering therefore never starts with
the digit 0.  So not each of the 10^6 strings "000000"–"999999" is a possible
output. -/
theorem leading_zero_code_unreachable_cex :
    ¬ ∃ rand : Nat, sixDigitCode rand = "042871" := by
  rintro ⟨r, hr⟩
  have h1 : 100000 ≤ codeValue r := by unfold codeValue; omega
  have h2 : codeValue r < 1000000 := by unfold codeValue; omega
  rw [sixDigitCode, natToString_six (codeValue r) h1 h2] at hr
  have hdata : [digitChar (codeValue r / 100000), digitChar (codeValue r / 10000 % 10),
      digitChar (codeValue r / 1000 % 10), digitChar (codeValue r / 100 % 10),
      digitChar (codeValue r / 10 % 10), digitChar (codeValue r % 10)] =
      ['0', '4', '2', '8', '7', '1'] := congrArg String.data hr
  have hhead : digitChar (codeValue r / 100000) = '0' := List.head_eq_of_cons_eq hdata
  exact digitChar_ne_zero (codeValue r / 100000) (by omega) (by omega) hhead

/-- C4 amended: every generated code is the decimal rendering of a value in
100000–999999 — a 6-character string with a nonzero leading digit (9·10^5
possible outputs; "000000"–"099999" are unreachable) — and conversely every
value in that range is reachable; a successful Issue persists the code with a
5-minute expiry. -/
theorem code_is_six_digits_no_leading_zero :
    (∀ (db : DB) (now : Int) (rand freshId : Nat) (userId email : String),
      recentCount db email now < 3 →
      generateEmailVerificationToken db now rand freshId userId email =
        (.issued (sixDigitCode rand),
         { db with emailVerificationTokens := db.emailVerificationTokens ++
            [⟨freshId, sixDigitCode rand, email, userId, now + 5 * msPerMinute, now⟩] })) ∧
    (∀ rand : Nat, 100000 ≤ codeValue rand ∧ codeValue rand ≤ 999999 ∧
      (sixDigitCode rand).length = 6 ∧
      (sixDigitCode rand).data.head? = some (digitChar (codeValue rand / 100000)) ∧
      digitChar (codeValue rand / 100000) ≠ '0') ∧
    (∀ n : Nat, 100000 ≤ n → n ≤ 999999 →
      sixDigitCode (n - 100000) = natToString n) := by
  refine ⟨?_, ?_, ?_⟩
  · intro db now rand freshId userId email h
    simp only [generateEmailVerificationToken]
    rw [if_neg (show ¬ 3 ≤ recentCount db email now from by omega)]
  · intro rand
    have h1 : 100000 ≤ codeValue rand := by unfold codeValue; omega
    have h2 : codeValue rand < 1000000 := by unfold codeValue; omega
    refine ⟨h1, by omega, ?_, ?_, ?_⟩
    · rw [sixDigitCode, natToString_six (codeValue rand) h1 h2]
      rfl
    · rw [sixDigitCode, natToString_six (codeValue rand) h1 h2]
      rfl
    · exact digitChar_ne_zero (codeValue rand / 100000) (by omega) (by omega)
  · intro n hn1 hn2
    have : codeValue (n - 100000) = n := by unfold codeValue; omega
    rw [sixDigitCode, this]

/-- Witness for `code_is_six_digits_no_leading_zero` at concrete inputs. -/
theorem code_is_six_digits_no_leading_zero_witness :
    generateEmailVerificationToken ⟨[], [], [], []⟩ 0 42871 1 "u1" "w@x.y" =
      (.issued (sixDigitCode 42871),
       { (⟨[], [], [], []⟩ : DB) with emailVerificationTokens := [] ++
          [⟨1, sixDigitCode 42871, "w@x.y", "u1", (0 : Int) + 5 * msPerMinute, 0⟩] }) ∧
    100000 ≤ codeValue 42871 ∧ (sixDigitCode 42871).length = 6 ∧
    sixDigitCode (142871 - 100000) = natToString 142871 :=
  ⟨code_is_six_digits_no_leading_zero.1 ⟨[], [], [], []⟩ 0 42871 1 "u1" "w@x.y"
     (by decide),
   (code_is_six_digits_no_leading_zero.2.1 42871).1,
   (code_is_six_digits_no_leading_zero.2.1 42871).2.2.1,
   code_is_six_digits_no_leading_zero.2.2 142871 (by decide) (by decide)⟩
